import Mathlib

/-!
Shallow embedding of the dbt-duckdb environment/connection-lifecycle layer
(`src/dbt/adapters/duckdb/environments.py` and
`src/dbt/adapters/duckdb/buenavista.py`).

Pure control flow and state mutation are translated directly; the external
collaborators (the native duckdb engine, psycopg2, the Python importlib
machinery, json.dumps, and the `credentials` module, which is not part of the
two source files) are modelled as abstract inputs:
  - the native connection carries an abstract table-state (a list of table
    names) so that sharing of state between cursors of one connection is
    observable;
  - the dynamic load/execute phase of `run_python_job` is abstracted by a
    `LoadResult` describing which of its steps fails, mirroring the branch
    structure of the Python code;
  - `Attachment.to_sql()` and `DuckDBCredentials.load_settings()` live in
    `credentials.py` (outside the sources); their results are taken as
    abstract data carried by the credentials value.
-/

namespace DuckDBAdapter

/-- A statement executed against a connection or cursor.  The Python code
builds SQL text (INSTALL, LOAD, SET, attachment SQL); we keep the statements
structured so that order of application is observable. -/
inductive Stmt where
  | install (ext : String)
  | load (ext : String)
  | set (key value : String)
  | attachSQL (sql : String)
deriving Repr, DecidableEq

/-- An action performed on the native (local) connection during
initialization. -/
inductive DBAction where
  | exec (s : Stmt)
  | registerFS (fsimpl : String) (params : List (String × String))
deriving Repr, DecidableEq

/-- An effect performed against the remote (Buena Vista) proxy. -/
inductive RemoteEffect where
  | connect (dbname user host : String) (port : Nat)
  | exec (s : Stmt)
  | execRaw (sql : String)
  | closeCursor
deriving Repr, DecidableEq

/-- Python exceptions that the modelled code can raise. -/
inductive PyError where
  | attributeError (msg : String)
  | dbtRuntimeError (msg : String)
  | exception (msg : String)
deriving Repr, DecidableEq

/-- The native duckdb connection of a `LocalEnvironment`.  The engine itself
is external; we track only the table-state it accumulates, which is shared by
every cursor derived from this connection and lost when the connection is
closed (for an in-memory target the tables exist only as long as the
connection lives). -/
structure NativeConn where
  tables : List String
deriving Repr, DecidableEq

/-- A remote target (`credentials.Remote`): host, port, user. -/
structure Remote where
  host : String
  port : Nat
  user : String
deriving Repr, DecidableEq

/-- An attachment declaration.  `to_sql()` is defined in `credentials.py`
(outside the two source files), so we carry its result as data. -/
structure Attachment where
  sqlText : String
deriving Repr, DecidableEq

/-- One fsspec filesystem spec: a dict whose `fs` key names the
implementation and whose remaining entries are passed as keyword args. -/
structure FsSpec where
  fs : String
  params : List (String × String)
deriving Repr, DecidableEq

/-- The slice of `DuckDBCredentials` that the two source files read.
`settings` is the (insertion-ordered) result of `load_settings()`, which is
defined in `credentials.py` outside the sources. -/
structure DuckDBCredentials where
  path : String
  database : String
  extensions : Option (List String)
  filesystems : Option (List FsSpec)
  attach : Option (List Attachment)
  settings : List (String × String)
  remote : Option Remote
deriving Repr, DecidableEq

/-- `dbt.contracts.connection.AdapterResponse`: we keep only the `_message`
field that this layer sets. -/
structure AdapterResponse where
  message : String
deriving Repr, DecidableEq

/-! ### DuckDBCursorWrapper -/

/-- Outcome of one `execute` call on the underlying native cursor. -/
inductive ExecOutcome where
  | success
  | runtimeError (msg : String)
deriving Repr, DecidableEq

/-- The native cursor behind a `DuckDBCursorWrapper`, abstracted by its two
call forms: `execute(sql)` and `execute(sql, bindings)`. -/
structure NativeCursor where
  exec1 : String → ExecOutcome
  exec2 : String → List String → ExecOutcome

/-- `DuckDBCursorWrapper.execute`: dispatches on whether bindings were
given, and catches `RuntimeError e`, re-raising `DbtRuntimeError(str(e))`. -/
def DuckDBCursorWrapper.execute (cur : NativeCursor) (sql : String)
    (bindings : Option (List String)) : Except PyError Unit :=
  let outcome :=
    match bindings with
    | none => cur.exec1 sql
    | some b => cur.exec2 sql b
  match outcome with
  | .success => .ok ()
  | .runtimeError msg => .error (.dbtRuntimeError msg)

/-! ### Environment.initialize_db / initialize_cursor

The Python loops execute one statement at a time; we accumulate the executed
actions imperatively (fold with append), mirroring the loop order. -/

/-- Sequential loop: perform `f x` for each `x`, appending to the log. -/
def execLoop (f : α → β) (xs : List α) (acc : List β) : List β :=
  xs.foldl (fun log x => log ++ [f x]) acc

/-- `Environment.initialize_db(creds, conn)`: install extensions (if the
list is not None), register fsspec filesystems (if the list is truthy),
execute each attachment SQL (if the list is truthy), in that order. -/
def Environment.initialize_db (creds : DuckDBCredentials) : List DBAction :=
  let log : List DBAction := []
  let log :=
    match creds.extensions with
    | some exts => execLoop (fun e => DBAction.exec (.install e)) exts log
    | none => log
  let log :=
    match creds.filesystems with
    | some fss =>
        if fss.isEmpty then log
        else execLoop (fun s => DBAction.registerFS s.fs s.params) fss log
    | none => log
  let log :=
    match creds.attach with
    | some atts =>
        if atts.isEmpty then log
        else execLoop (fun a => DBAction.exec (.attachSQL a.sqlText)) atts log
    | none => log
  log

/-- `Environment.initialize_cursor(creds, cursor)`: `LOAD` every extension
(`creds.extensions or []`), then `SET` every setting, in declared order. -/
def Environment.initialize_cursor (creds : DuckDBCredentials) : List DBAction :=
  let log := execLoop (fun e => DBAction.exec (.load e)) (creds.extensions.getD []) []
  execLoop (fun kv => DBAction.exec (.set kv.1 kv.2)) creds.settings log

/-! ### Environment.run_python_job

Steps: write the compiled code to a fresh temp file; inside `try`, build the
module spec (raising a `DbtRuntimeError` naming the identifier when the spec
or its loader is missing), exec the module and run `dbtObj` → `model` →
`materialize`; `except Exception` wraps any of those errors with the fixed
prefix; `finally` unlinks the temp file on every path.  The dynamic behavior
of the loaded module is abstracted by `LoadResult`. -/

/-- What the dynamic load/execute steps of `run_python_job` do: the spec is
missing, the loader is missing, some step raises with a message, or all of
`exec_module`, `dbtObj`, `model`, `materialize` succeed. -/
inductive LoadResult where
  | noSpec
  | noLoader
  | stepError (msg : String)
  | ok
deriving Repr, DecidableEq

/-- The body of the `try` block of `run_python_job`: either succeeds or
raises an exception whose `str` is the returned message. -/
def runPythonJobTryBody (identifier : String) (outcome : LoadResult) :
    Except String Unit :=
  match outcome with
  | .noSpec => .error ("Failed to load python model as module: " ++ identifier)
  | .noLoader => .error ("Python module spec is missing loader: " ++ identifier)
  | .stepError msg => .error msg
  | .ok => .ok ()

/-- `Environment.run_python_job`, with the filesystem as an explicit list of
existing file names.  `fname` is the fresh name the tempfile module picked
(fresh: not already in `fs`).  Returns the result (an exception carries the
`DbtRuntimeError` message) together with the filesystem after the `finally`
clause has unlinked the temp file. -/
def Environment.run_python_job (fs : List String) (fname : String)
    (identifier : String) (outcome : LoadResult) :
    Except String Unit × List String :=
  let fsAfterCreate := fname :: fs
  let result : Except String Unit :=
    match runPythonJobTryBody identifier outcome with
    | .ok () => .ok ()
    | .error msg => .error ("Python model failed:\n" ++ msg)
  let fsAfterUnlink := fsAfterCreate.erase fname
  (result, fsAfterUnlink)

/-! ### LocalEnvironment

State machine over the mutable fields of a `LocalEnvironment` instance:
`self.conn` (an `Option NativeConn`, `None` once cleared) and `self.handles`
(a Python int).  `closeCalls` counts how many times `self.conn.close()` has
been invoked, so "closed exactly once" is observable. -/

structure LocalEnvState where
  conn : Option NativeConn
  creds : DuckDBCredentials
  handles : Int
  closeCalls : Nat
deriving Repr, DecidableEq

/-- `LocalEnvironment.__init__`: opens a fresh native connection at
`credentials.path`, runs `initialize_db` against it (its actions are the
`Environment.initialize_db` log), and sets `self.handles = 0`. -/
def LocalEnvironment.mk (creds : DuckDBCredentials) : LocalEnvState :=
  { conn := some { tables := [] }
    creds := creds
    handles := 0
    closeCalls := 0 }

/-- `LocalEnvironment.handle`: increments `self.handles`, then derives a
cursor via `self.conn.cursor()` — which raises `AttributeError` when
`self.conn` is `None` — and applies `initialize_cursor` to it.  Note the
counter is incremented before the cursor derivation, exactly as in the
source. -/
def LocalEnvironment.handle (s : LocalEnvState) : Except PyError LocalEnvState :=
  let s := { s with handles := s.handles + 1 }
  match s.conn with
  | some _ => .ok s
  | none => .error (.attributeError "NoneType object has no attribute cursor")

/-- `LocalEnvironment.close`: closes the wrapper cursor, decrements
`self.handles`, and — when `self.conn` is truthy, the count is zero and the
target path is not the `:memory:` sentinel — closes the native connection
and clears the reference. -/
def LocalEnvironment.close (s : LocalEnvState) : LocalEnvState :=
  let s := { s with handles := s.handles - 1 }
  if s.conn.isSome ∧ s.handles = 0 ∧ s.creds.path ≠ ":memory:" then
    { s with conn := none, closeCalls := s.closeCalls + 1 }
  else s

/-- `LocalEnvironment.__del__`: `self.conn.close(); self.conn = None` with
no guard — when `self.conn` is already `None` the attribute access raises
`AttributeError` (which the Python runtime then suppresses, as it does every
exception escaping a finalizer). -/
def LocalEnvironment.del (s : LocalEnvState) : Except PyError LocalEnvState :=
  match s.conn with
  | some _ => .ok { s with conn := none, closeCalls := s.closeCalls + 1 }
  | none => .error (.attributeError "NoneType object has no attribute close")

/-- Executing `create table t(...)` through a cursor of the shared native
connection: the table is recorded in the connection-wide state. -/
def LocalEnvState.execCreateTable (s : LocalEnvState) (t : String) :
    Except PyError LocalEnvState :=
  match s.conn with
  | some c => .ok { s with conn := some { tables := t :: c.tables } }
  | none => .error (.attributeError "NoneType object has no attribute cursor")

/-- Whether `select * from t` through a cursor of the native connection
succeeds: the connection must be live and the table present. -/
def LocalEnvState.selectFrom (s : LocalEnvState) (t : String) : Bool :=
  match s.conn with
  | some c => c.tables.contains t
  | none => false

/-- `N` successive `handle()` acquisitions. -/
def acquireSeq : Nat → LocalEnvState → Except PyError LocalEnvState
  | 0, s => .ok s
  | n + 1, s => (LocalEnvironment.handle s).bind (acquireSeq n)

/-- `k` successive `close()` releases. -/
def closeSeq : Nat → LocalEnvState → LocalEnvState
  | 0, s => s
  | n + 1, s => closeSeq n (LocalEnvironment.close s)

/-- `LocalEnvironment.submit_python_job`: runs `run_python_job` on the
handle cursor and returns `AdapterResponse(_message="OK")`; an exception
from the job propagates. -/
def LocalEnvironment.submit_python_job (fs : List String) (fname : String)
    (identifier : String) (outcome : LoadResult) :
    Except String AdapterResponse × List String :=
  let r := Environment.run_python_job fs fname identifier outcome
  (r.1.map (fun _ => { message := "OK" }), r.2)

/-! ### BVEnvironment (remote / Buena Vista proxy) -/

/-- The immutable state of a constructed `BVEnvironment`. -/
structure BVEnvState where
  creds : DuckDBCredentials
deriving Repr, DecidableEq

/-- `BVEnvironment.__init__`: stores the credentials and raises
`Exception("BVConnection only works with a remote host")` if
`self.creds.remote` is falsy.  The constructor performs no remote effect;
the returned list is the (empty) log of effects it makes. -/
def BVEnvironment.init (creds : DuckDBCredentials) :
    Except PyError BVEnvState × List RemoteEffect :=
  match creds.remote with
  | none => (.error (.exception "BVConnection only works with a remote host"), [])
  | some _ => (.ok { creds := creds }, [])

/-- `BVEnvironment.handle`: opens a fresh psycopg2 connection to the remote
target, derives a cursor, `LOAD`s every extension then `SET`s every setting
in declared order, closes the cursor and returns the connection.  We log the
effects in execution order.  Requires a remote target (`handle` is only
reachable on a constructed instance, whose constructor enforced that). -/
def BVEnvironment.handleEffects (creds : DuckDBCredentials) (remote : Remote) :
    List RemoteEffect :=
  let log := [RemoteEffect.connect creds.database remote.user remote.host remote.port]
  let log := execLoop (fun e => RemoteEffect.exec (.load e)) (creds.extensions.getD []) log
  let log := execLoop (fun kv => RemoteEffect.exec (.set kv.1 kv.2)) creds.settings log
  log ++ [RemoteEffect.closeCursor]

/-- The JSON payload of a remote python-job submission, before
serialization. -/
structure JobPayload where
  method : String
  module_name : String
  module_definition : String
deriving Repr, DecidableEq

/-- `BVEnvironment.submit_python_job`: builds the payload dict, serializes
it with `json.dumps` (the stdlib serializer, abstracted as `dumps`), and
executes the resulting string as one statement on the handle cursor, then
returns `AdapterResponse(_message="OK")`. -/
def BVEnvironment.submit_python_job (dumps : JobPayload → String)
    (identifier compiled_code : String) :
    List RemoteEffect × AdapterResponse :=
  let payload : JobPayload :=
    { method := "dbt_python_job"
      module_name := identifier
      module_definition := compiled_code }
  ([RemoteEffect.execRaw (dumps payload)], { message := "OK" })

/-! ### Concrete credential fixtures used by the witnesses -/

/-- A local, file-backed target with no declared configuration. -/
def fileCreds : DuckDBCredentials :=
  { path := "test.db"
    database := "main"
    extensions := none
    filesystems := none
    attach := none
    settings := []
    remote := none }

/-- An in-memory local target with no declared configuration. -/
def memCreds : DuckDBCredentials :=
  { fileCreds with path := ":memory:" }

/-- The state of the spec §8 scenario right before the release: an
in-memory Local Environment with one outstanding handle through which
`create table t(x int)` was executed. -/
def memScenario : LocalEnvState :=
  { conn := some { tables := ["t"] }
    creds := memCreds
    handles := 1
    closeCalls := 0 }

/-- The state of a freshly constructed file-backed Local Environment after
one handle acquisition. -/
def oneHandleState : LocalEnvState :=
  { conn := some { tables := [] }
    creds := fileCreds
    handles := 0 + 1
    closeCalls := 0 }

/-! ### Lemmas about the LocalEnvironment lifecycle -/

/-- A release that does not bring the count to zero only decrements it. -/
lemma close_notLast (s : LocalEnvState) (h : s.handles ≠ 1) :
    LocalEnvironment.close s = { s with handles := s.handles - 1 } := by
  unfold LocalEnvironment.close
  rw [if_neg]
  rintro ⟨-, h2, -⟩
  simp only at h2
  omega

/-- For an in-memory target, a release only decrements the count. -/
lemma close_memory (s : LocalEnvState) (h : s.creds.path = ":memory:") :
    LocalEnvironment.close s = { s with handles := s.handles - 1 } := by
  unfold LocalEnvironment.close
  rw [if_neg]
  rintro ⟨-, -, h3⟩
  exact h3 h

/-- The release that brings the count from one to zero on a live, non-memory
target closes the native connection and clears the reference. -/
lemma close_last (s : LocalEnvState) (c : NativeConn) (hc : s.conn = some c)
    (h1 : s.handles = 1) (hm : s.creds.path ≠ ":memory:") :
    LocalEnvironment.close s =
      { s with conn := none, handles := 0, closeCalls := s.closeCalls + 1 } := by
  unfold LocalEnvironment.close
  rw [if_pos]
  · simp only [LocalEnvState.mk.injEq, true_and, and_true]
    omega
  · exact ⟨by simp [hc], by simp [h1], hm⟩

/-- Acquisitions from a live connection always succeed and only increment
the count. -/
lemma acquireSeq_ok (n : Nat) (s : LocalEnvState) (c : NativeConn)
    (hc : s.conn = some c) :
    acquireSeq n s = .ok { s with handles := s.handles + n } := by
  induction n generalizing s with
  | zero => simp [acquireSeq]
  | succ n ih =>
    have hstep : LocalEnvironment.handle s = .ok { s with handles := s.handles + 1 } := by
      unfold LocalEnvironment.handle
      simp [hc]
    simp only [acquireSeq, hstep, Except.bind]
    rw [ih { s with handles := s.handles + 1 } (by simp [hc])]
    simp only [Except.ok.injEq, LocalEnvState.mk.injEq, true_and, and_true]
    omega

/-- Splitting a sequence of releases. -/
lemma closeSeq_add (a b : Nat) (s : LocalEnvState) :
    closeSeq (a + b) s = closeSeq b (closeSeq a s) := by
  induction a generalizing s with
  | zero => rw [Nat.zero_add]; rfl
  | succ a ih =>
    have h : a + 1 + b = (a + b) + 1 := by omega
    rw [h]
    show closeSeq (a + b) (LocalEnvironment.close s)
        = closeSeq b (closeSeq a (LocalEnvironment.close s))
    exact ih (LocalEnvironment.close s)

/-- As long as fewer releases have happened than the count, no release
closes the connection: only the count changes. -/
lemma closeSeq_noClose (k : Nat) (s : LocalEnvState) (h : (k : Int) < s.handles) :
    closeSeq k s = { s with handles := s.handles - k } := by
  induction k generalizing s with
  | zero => simp [closeSeq]
  | succ k ih =>
    have hne : s.handles ≠ 1 := by omega
    show closeSeq k (LocalEnvironment.close s) = _
    rw [close_notLast s hne, ih { s with handles := s.handles - 1 } (by simp; omega)]
    simp only [LocalEnvState.mk.injEq, true_and, and_true]
    omega

/-- After exactly as many releases as the count, the connection has been
closed once and the reference cleared (non-memory target). -/
lemma closeSeq_closesAtLast (n : Nat) (hn : 1 ≤ n) (s : LocalEnvState)
    (c : NativeConn) (hc : s.conn = some c) (hh : s.handles = (n : Int))
    (hm : s.creds.path ≠ ":memory:") :
    closeSeq n s =
      { s with conn := none, handles := 0, closeCalls := s.closeCalls + 1 } := by
  obtain ⟨m, rfl⟩ : ∃ m, n = m + 1 := ⟨n - 1, by omega⟩
  rw [closeSeq_add m 1 s, closeSeq_noClose m s (by omega)]
  show LocalEnvironment.close { s with handles := s.handles - (m : Int) } = _
  rw [close_last { s with handles := s.handles - (m : Int) } c (by simp [hc])
    (by simp; omega) (by simpa using hm)]

/-! ### Claim theorems -/

/-- Claim C1: for every Local Environment configured with a non-in-memory
target path, and every sequence of N handle() acquisitions followed by N
close() releases (each handle closed exactly once), the Native Connection is
closed exactly once, immediately after the N-th release, and is not closed
after any earlier release. -/
theorem localEnv_conn_closed_exactly_at_last_release
    (creds : DuckDBCredentials) (hm : creds.path ≠ ":memory:")
    (N : Nat) (hN : 1 ≤ N) :
    ∃ s, acquireSeq N (LocalEnvironment.mk creds) = .ok s ∧
      (∀ k, k < N → (closeSeq k s).closeCalls = 0 ∧ (closeSeq k s).conn ≠ none) ∧
      (closeSeq N s).closeCalls = 1 ∧ (closeSeq N s).conn = none := by
  have hacq := acquireSeq_ok N (LocalEnvironment.mk creds) { tables := [] } rfl
  refine ⟨_, hacq, ?_, ?_, ?_⟩
  · intro k hk
    rw [closeSeq_noClose k _ (by simp [LocalEnvironment.mk]; omega)]
    exact ⟨by simp [LocalEnvironment.mk], by simp [LocalEnvironment.mk]⟩
  · rw [closeSeq_closesAtLast N hN _ { tables := [] }
      (by simp [LocalEnvironment.mk]) (by simp [LocalEnvironment.mk]) hm]
    simp [LocalEnvironment.mk]
  · rw [closeSeq_closesAtLast N hN _ { tables := [] }
      (by simp [LocalEnvironment.mk]) (by simp [LocalEnvironment.mk]) hm]

/-- Witness for C1 at the concrete file-backed credentials and N = 2. -/
theorem localEnv_conn_closed_exactly_at_last_release_witness :
    fileCreds.path ≠ ":memory:" ∧ 1 ≤ 2 ∧
    (∃ s, acquireSeq 2 (LocalEnvironment.mk fileCreds) = .ok s ∧
      (∀ k, k < 2 → (closeSeq k s).closeCalls = 0 ∧ (closeSeq k s).conn ≠ none) ∧
      (closeSeq 2 s).closeCalls = 1 ∧ (closeSeq 2 s).conn = none) :=
  ⟨by decide, by decide,
    localEnv_conn_closed_exactly_at_last_release fileCreds (by decide) 2 (by decide)⟩

/-- Claim C2: for a Local Environment whose target is the in-memory
sentinel, releasing an outstanding handle (also the one that brings the count
to zero) neither closes the Native Connection nor clears it, so table state
created through an earlier handle stays visible to a handle acquired
afterwards. -/
theorem memory_target_release_preserves_conn
    (s : LocalEnvState) (h : s.creds.path = ":memory:") :
    (LocalEnvironment.close s).conn = s.conn ∧
    (LocalEnvironment.close s).closeCalls = s.closeCalls ∧
    ∀ t, s.selectFrom t = true →
      ∃ s2, LocalEnvironment.handle (LocalEnvironment.close s) = .ok s2 ∧
        s2.selectFrom t = true := by
  rw [close_memory s h]
  refine ⟨rfl, rfl, ?_⟩
  intro t ht
  cases hc : s.conn with
  | none => simp [LocalEnvState.selectFrom, hc] at ht
  | some c =>
    refine ⟨{ conn := some c, creds := s.creds, handles := s.handles - 1 + 1,
              closeCalls := s.closeCalls }, rfl, ?_⟩
    simpa [LocalEnvState.selectFrom, hc] using ht

/-- Witness for C2: the §8 scenario state (in-memory target, one outstanding
handle that created table `t`): closing it keeps the connection and the
table visible to the next handle. -/
theorem memory_target_release_preserves_conn_witness :
    memScenario.creds.path = ":memory:" ∧
    ((LocalEnvironment.close memScenario).conn = memScenario.conn ∧
      (LocalEnvironment.close memScenario).closeCalls = memScenario.closeCalls ∧
      ∀ t, memScenario.selectFrom t = true →
        ∃ s2, LocalEnvironment.handle (LocalEnvironment.close memScenario) = .ok s2 ∧
          s2.selectFrom t = true) :=
  ⟨rfl, memory_target_release_preserves_conn memScenario rfl⟩

/-- Claim C10: on a non-in-memory Local Environment, after the
outstanding-handle count returns to zero (closing the Native Connection and
clearing the stored reference), a further handle() call does not reopen the
connection: it fails with an AttributeError raised when deriving a cursor
from the cleared (None) reference. -/
theorem handle_after_zero_count_raises_attribute_error
    (creds : DuckDBCredentials) (hm : creds.path ≠ ":memory:")
    (N : Nat) (hN : 1 ≤ N) (s : LocalEnvState)
    (hs : acquireSeq N (LocalEnvironment.mk creds) = .ok s) :
    (closeSeq N s).conn = none ∧
    ∃ msg, LocalEnvironment.handle (closeSeq N s) = .error (.attributeError msg) := by
  have hacq := acquireSeq_ok N (LocalEnvironment.mk creds) { tables := [] } rfl
  rw [hacq] at hs
  obtain rfl : _ = s := by simpa using hs
  rw [closeSeq_closesAtLast N hN _ { tables := [] }
    (by simp [LocalEnvironment.mk]) (by simp [LocalEnvironment.mk]) hm]
  exact ⟨rfl, "NoneType object has no attribute cursor", rfl⟩

/-- Witness for C10 at the file-backed credentials and N = 1: the state
after one acquisition is concrete, and the handle call after the single
release fails with an AttributeError. -/
theorem handle_after_zero_count_raises_attribute_error_witness :
    fileCreds.path ≠ ":memory:" ∧ 1 ≤ 1 ∧
    acquireSeq 1 (LocalEnvironment.mk fileCreds) = .ok oneHandleState ∧
    ((closeSeq 1 oneHandleState).conn = none ∧
      ∃ msg, LocalEnvironment.handle (closeSeq 1 oneHandleState)
        = .error (.attributeError msg)) :=
  ⟨by decide, by decide, by rfl,
    handle_after_zero_count_raises_attribute_error fileCreds (by decide) 1 (by decide)
      oneHandleState (by rfl)⟩

/-- Counterexample for C8: `__del__` on a Local Environment whose connection
reference is already cleared (conn = None, as after a count-zero closure) is
not a no-op — the body raises AttributeError on `self.conn.close()`. -/
theorem del_on_cleared_conn_raises :
    LocalEnvironment.del
        { conn := none, creds := fileCreds, handles := 0, closeCalls := 1 }
      = .error (.attributeError "NoneType object has no attribute close") := rfl

/-- Amended C8: process teardown (`__del__`) closes the Native Connection
whenever it is present, independent of the outstanding-handle count; when
the reference has already been cleared, the teardown body raises an
AttributeError (which the Python runtime suppresses during finalization)
rather than being a silent no-op. -/
theorem del_closes_conn_unconditionally (s : LocalEnvState) :
    (∀ c, s.conn = some c →
      LocalEnvironment.del s
        = .ok { s with conn := none, closeCalls := s.closeCalls + 1 }) ∧
    (s.conn = none →
      ∃ msg, LocalEnvironment.del s = .error (.attributeError msg)) := by
  constructor
  · intro c hc
    unfold LocalEnvironment.del
    rw [hc]
  · intro hc
    refine ⟨"NoneType object has no attribute close", ?_⟩
    unfold LocalEnvironment.del
    rw [hc]

/-- Witness for the amended C8: with five handles still outstanding,
teardown closes the live connection anyway; with the reference cleared,
teardown raises. -/
theorem del_closes_conn_unconditionally_witness :
    (LocalEnvironment.del
        { conn := some { tables := [] }, creds := fileCreds, handles := 5, closeCalls := 0 }
      = .ok { conn := none, creds := fileCreds, handles := 5, closeCalls := 1 }) ∧
    (∃ msg, LocalEnvironment.del
        { conn := none, creds := memCreds, handles := 0, closeCalls := 0 }
      = .error (.attributeError msg)) :=
  ⟨(del_closes_conn_unconditionally
      { conn := some { tables := [] }, creds := fileCreds, handles := 5, closeCalls := 0 }).1
      { tables := [] } rfl,
    (del_closes_conn_unconditionally
      { conn := none, creds := memCreds, handles := 0, closeCalls := 0 }).2 rfl⟩

/-- Counterexample for C3: when `model` itself raises (here with message
`boom`) under job identifier `my_model`, the re-raised `DbtRuntimeError`
message is exactly the fixed prefix plus the original message — the job
identifier appears nowhere in it. -/
theorem python_job_error_message_omits_identifier :
    (Environment.run_python_job [] "tmp_job.py" "my_model"
        (.stepError "boom")).1 = .error "Python model failed:\nboom" ∧
    ¬ ("my_model".data <:+: ("Python model failed:\nboom").data) := by
  exact ⟨rfl, by decide⟩

/-- Amended C3: any exception from the load/execute steps of a procedural
job is re-raised as a `DbtRuntimeError` whose message is the fixed prefix
`Python model failed:` plus a newline plus the original message; the job
identifier is part of the message only for the two load-phase failures
(missing spec, missing loader), whose own messages name it. -/
theorem python_job_error_wrapped_with_fixed_prefix
    (fs : List String) (fname identifier msg : String) (outcome : LoadResult)
    (h : runPythonJobTryBody identifier outcome = .error msg) :
    (Environment.run_python_job fs fname identifier outcome).1
      = .error ("Python model failed:\n" ++ msg) := by
  unfold Environment.run_python_job
  rw [h]

/-- Witness for the amended C3 at a concrete failing job. -/
theorem python_job_error_wrapped_with_fixed_prefix_witness :
    runPythonJobTryBody "m1" (.stepError "boom") = .error "boom" ∧
    (Environment.run_python_job [] "f.py" "m1" (.stepError "boom")).1
      = .error ("Python model failed:\n" ++ "boom") :=
  ⟨rfl, python_job_error_wrapped_with_fixed_prefix [] "f.py" "m1" "boom"
    (.stepError "boom") rfl⟩

/-- Claim C4: once the temporary module file has been created, it is
deleted on every exit path of `run_python_job` — success or failure — so
after any completed `submit_python_job` call the file no longer exists.
(`fname ∉ fs` is the freshness of the name the tempfile module picked.) -/
theorem python_job_temp_file_always_unlinked
    (fs : List String) (fname identifier : String) (outcome : LoadResult)
    (h : fname ∉ fs) :
    fname ∉ (Environment.run_python_job fs fname identifier outcome).2 ∧
    fname ∉ (LocalEnvironment.submit_python_job fs fname identifier outcome).2 := by
  have h2 : (Environment.run_python_job fs fname identifier outcome).2 = fs := by
    unfold Environment.run_python_job
    simp [List.erase_cons_head]
  have h3 : (LocalEnvironment.submit_python_job fs fname identifier outcome).2 = fs := by
    unfold LocalEnvironment.submit_python_job
    exact h2
  rw [h2, h3]
  exact ⟨h, h⟩

/-- Witness for C4: a failing job with a fresh temp file name. -/
theorem python_job_temp_file_always_unlinked_witness :
    "tmp1.py" ∉ (["other.py"] : List String) ∧
    ("tmp1.py" ∉ (Environment.run_python_job ["other.py"] "tmp1.py" "m"
        (.stepError "boom")).2 ∧
      "tmp1.py" ∉ (LocalEnvironment.submit_python_job ["other.py"] "tmp1.py" "m"
        (.stepError "boom")).2) :=
  ⟨by decide, python_job_temp_file_always_unlinked ["other.py"] "tmp1.py" "m"
    (.stepError "boom") (by decide)⟩

/-- Claim C5: constructing a `BVEnvironment` without a remote target raises
immediately (the fatal configuration error of the spec taxonomy, a Python
`Exception` naming the cause) and performs no remote effect, in particular
no connection attempt. -/
theorem bv_init_without_remote_raises_before_connect
    (creds : DuckDBCredentials) (h : creds.remote = none) :
    (BVEnvironment.init creds).1
        = .error (.exception "BVConnection only works with a remote host") ∧
    (BVEnvironment.init creds).2 = [] := by
  unfold BVEnvironment.init
  rw [h]
  exact ⟨rfl, rfl⟩

/-- Witness for C5 at the local file-backed credentials. -/
theorem bv_init_without_remote_raises_before_connect_witness :
    fileCreds.remote = none ∧
    ((BVEnvironment.init fileCreds).1
        = .error (.exception "BVConnection only works with a remote host") ∧
      (BVEnvironment.init fileCreds).2 = []) :=
  ⟨rfl, bv_init_without_remote_raises_before_connect fileCreds rfl⟩

/-- An imperative accumulation loop is a map in declaration order. -/
lemma execLoop_eq (f : α → β) (xs : List α) (acc : List β) :
    execLoop f xs acc = acc ++ xs.map f := by
  induction xs generalizing acc with
  | nil => simp [execLoop]
  | cons x xs ih =>
    show execLoop f xs (acc ++ [f x]) = acc ++ (f x :: xs.map f)
    rw [ih]
    simp

/-- Claim C6: configuration items are applied in a fixed order — at
construction, installs of the declared extensions, then filesystem
registrations, then attachments, each in declaration order; on every handle
acquisition (local `initialize_cursor` and remote `BVEnvironment.handle`
alike), every declared extension is loaded before any setting is assigned,
each list in declared order. -/
theorem config_actions_applied_in_declared_order
    (creds : DuckDBCredentials) (remote : Remote) :
    Environment.initialize_db creds
        = (creds.extensions.getD []).map (fun e => DBAction.exec (.install e))
          ++ (creds.filesystems.getD []).map (fun sp => DBAction.registerFS sp.fs sp.params)
          ++ (creds.attach.getD []).map (fun a => DBAction.exec (.attachSQL a.sqlText)) ∧
    Environment.initialize_cursor creds
        = (creds.extensions.getD []).map (fun e => DBAction.exec (.load e))
          ++ creds.settings.map (fun kv => DBAction.exec (.set kv.1 kv.2)) ∧
    BVEnvironment.handleEffects creds remote
        = RemoteEffect.connect creds.database remote.user remote.host remote.port
          :: ((creds.extensions.getD []).map (fun e => RemoteEffect.exec (.load e))
              ++ creds.settings.map (fun kv => RemoteEffect.exec (.set kv.1 kv.2))
              ++ [RemoteEffect.closeCursor]) := by
  refine ⟨?_, ?_, ?_⟩
  · unfold Environment.initialize_db
    rcases creds.extensions with _ | exts <;>
      rcases creds.filesystems with _ | (_ | ⟨f, fss⟩) <;>
      rcases creds.attach with _ | (_ | ⟨a, atts⟩) <;>
      simp [execLoop_eq]
  · unfold Environment.initialize_cursor
    simp [execLoop_eq]
  · unfold BVEnvironment.handleEffects
    simp [execLoop_eq]

/-- Claim C7: a native-engine RuntimeError raised while executing on the
underlying cursor — in either call form — is caught by the wrapper and
re-raised as `DbtRuntimeError` with the original message preserved. -/
theorem cursor_execute_wraps_runtime_error
    (cur : NativeCursor) (sql : String) (bindings : Option (List String))
    (msg : String)
    (h : (match bindings with
          | none => cur.exec1 sql
          | some b => cur.exec2 sql b) = .runtimeError msg) :
    DuckDBCursorWrapper.execute cur sql bindings
      = .error (.dbtRuntimeError msg) := by
  unfold DuckDBCursorWrapper.execute
  rw [h]

/-- A native cursor that fails with a RuntimeError on the bindings-free call
form. -/
def boomCursor : NativeCursor :=
  { exec1 := fun _ => .runtimeError "native boom"
    exec2 := fun _ _ => .success }

/-- Witness for C7 at a concrete failing cursor. -/
theorem cursor_execute_wraps_runtime_error_witness :
    (match (none : Option (List String)) with
      | none => boomCursor.exec1 "select 1"
      | some b => boomCursor.exec2 "select 1" b) = .runtimeError "native boom" ∧
    DuckDBCursorWrapper.execute boomCursor "select 1" none
      = .error (.dbtRuntimeError "native boom") :=
  ⟨rfl, cursor_execute_wraps_runtime_error boomCursor "select 1" none
    "native boom" rfl⟩

/-- Claim C9: a successful procedural job submission returns a response
whose status message is exactly `OK`; on the Remote Environment the
submission executes, as one single statement, the serialized payload
`method = dbt_python_job, params = (module_name, module_definition)`. -/
theorem submit_python_job_ok_and_wire_payload
    (dumps : JobPayload → String) (identifier code : String)
    (fs : List String) (fname : String) (outcome : LoadResult)
    (h : outcome = LoadResult.ok) :
    BVEnvironment.submit_python_job dumps identifier code
        = ([RemoteEffect.execRaw (dumps
            { method := "dbt_python_job"
              module_name := identifier
              module_definition := code })],
          { message := "OK" }) ∧
    (LocalEnvironment.submit_python_job fs fname identifier outcome).1
        = .ok { message := "OK" } := by
  subst h
  exact ⟨rfl, rfl⟩

/-- Witness for C9 at a concrete serializer and job. -/
theorem submit_python_job_ok_and_wire_payload_witness :
    BVEnvironment.submit_python_job (fun p => p.method) "m" "c"
        = ([RemoteEffect.execRaw ((fun p : JobPayload => p.method)
            { method := "dbt_python_job"
              module_name := "m"
              module_definition := "c" })],
          { message := "OK" }) ∧
    (LocalEnvironment.submit_python_job [] "f.py" "m" LoadResult.ok).1
        = .ok { message := "OK" } :=
  submit_python_job_ok_and_wire_payload (fun p => p.method) "m" "c" [] "f.py"
    LoadResult.ok rfl

end DuckDBAdapter
